import Mathlib

/-!
# Verification of the tenant-scoped RAG core of MultiAgent-Using-Langchain

Shallow embedding of `app/services/rag_service.py` (class `RAGService`) and
the client branch of `reindex_documents_task` in `app/tasks/rag_tasks.py`.

Modelling conventions:
* A stored fragment (a `langchain.schema.Document` living in the Chroma
  collection) is a `Doc`: page content plus the metadata dictionary that
  `add_documents` attaches.  The vector store is the list of stored docs.
* `client_id` is a Python int, modelled as `Int`.
* A UUID is modelled as its version nibble paired with a serial number
  drawn from a program-wide fresh supply (a counter threaded through the
  calls): freshness of the random UUIDs holds with probability 1, and two
  UUIDs of different versions are never equal.  `str(uuid.uuid4())` in
  `add_documents` yields version-4 ids; the collection record ids that
  langchain `add_texts` generates internally (`uuid.uuid1()`) — and that
  `add_documents` discards at line 106 — are version-1 ids.  The two id
  populations are therefore disjoint, which is what `Chroma.delete`
  behavior turns on.
* The embedding backend (`HuggingFaceEmbeddings`) is a parameter
  `embed : String → Except String (List Int)`; `.error` models
  `EmbeddingUnavailable`.  Availability of the Chroma storage backend is a
  Boolean parameter `avail`; when it is `false` the storage calls raise
  `StorageUnavailable`.  Both follow the collaborator contracts in the spec
  (`embed(text) -> vector`, failing with `EmbeddingUnavailable`;
  storage failing with `StorageUnavailable`).
* The langchain `Chroma` wrapper batch-embeds every text of an
  `add_documents` call (`embed_documents`) before any record is inserted,
  and `similarity_search` embeds the query text (also the empty string)
  before querying the collection; `vs_add_documents` / `vs_similarity_search`
  model exactly that order of effects.
-/

namespace RagService

/-- A UUID string, modelled as its version nibble paired with a serial
number from the program-wide fresh supply.  `uuid.uuid4()` produces
version 4, `uuid.uuid1()` (used internally by langchain `add_texts` for
collection record ids) produces version 1; ids of different versions are
never equal as strings. -/
structure Uuid where
  version : Nat
  serial : Nat
  deriving Repr, DecidableEq

/-- The metadata dictionary `add_documents` attaches to every chunk
(`rag_service.py` lines 93-100).  `source_id` is `doc.get('source_id')`,
hence optional; `doc_id` is `str(uuid.uuid4())`, modelled as an optional
uuid (`none` models a metadata dictionary without the key, as
`metadata.get('doc_id')` can observe). -/
structure Metadata where
  client_id : Int
  source_id : Option String
  source_type : String
  title : String
  chunk_index : Nat
  doc_id : Option Uuid
  deriving Repr, DecidableEq

/-- A stored document chunk: a langchain `Document` (page content plus
metadata) as it sits in the Chroma collection, together with
`record_id`, the collection record id under which Chroma stores it.
`record_id` is generated inside `Chroma.add_texts` (`uuid.uuid1()`), is
returned to and discarded by `add_documents` (line 106), and is never
equal to any metadata `doc_id` (different uuid version).  The model
carries the record id on the document from construction on — nothing
observes a chunk between its construction and its insertion, so this is
observationally the same as assigning it at insert time, and it keeps
the insertion a plain append. -/
structure Doc where
  page_content : String
  metadata : Metadata
  record_id : Uuid
  deriving Repr, DecidableEq

/-- The Chroma collection: the multiset of stored chunks, in insertion
order. -/
abbrev Store := List Doc

/-- An element of the input list of `add_documents`: the document
dictionary, read with `doc['content']`, `doc.get('source_id')`,
`doc.get('source_type', 'unknown')`, `doc.get('title', '')`. -/
structure InDoc where
  content : String
  source_id : Option String := none
  source_type : String := "unknown"
  title : String := ""
  deriving Repr, DecidableEq

/-! ## Chunker

`RAGService.__init__` configures
`RecursiveCharacterTextSplitter(chunk_size=1000, chunk_overlap=200,
length_function=len)`.  For input text containing none of the
higher-priority separators (`"\n\n"`, `"\n"`, `" "`), the splitter falls
back to the character-level separator `""`: the text is split into single
characters and `_merge_splits` greedily packs them into chunks of at most
1000 characters, keeping the trailing 200 characters as the start of the
next chunk.  `chunkCharsAux`/`split_text` embed exactly that
character-level path: a full chunk is 1000 characters and the next chunk
starts 800 characters later; an empty text produces no chunks.  The fuel
argument only makes the recursion structural (each step drops 800 ≥ 1
characters, so `s.length` steps always suffice). -/

def chunkSize : Nat := 1000

def chunkOverlap : Nat := 200

def chunkCharsAux : Nat → List Char → List (List Char)
  | 0, _ => []
  | fuel + 1, s =>
    if s.isEmpty then []
    else if s.length ≤ chunkSize then [s]
    else s.take chunkSize :: chunkCharsAux fuel (s.drop (chunkSize - chunkOverlap))

def chunkChars (s : List Char) : List (List Char) :=
  chunkCharsAux s.length s

/-- `text_splitter.split_text` on separator-free text. -/
def split_text (s : String) : List String :=
  (chunkChars s.data).map (fun cs => String.mk cs)

end RagService

namespace RagService

/-- The embedding capability (`HuggingFaceEmbeddings`): `embed(text) ->
vector`, failing with `EmbeddingUnavailable` (spec §6). -/
abbrev EmbedFun := String → Except String (List Int)

/-- `embed_documents`: the langchain `Chroma` wrapper embeds every text of
a batch before inserting any record; a failure on any text fails the whole
batch. -/
def embedAll (embed : EmbedFun) : List Doc → Except String (List (List Int))
  | [] => .ok []
  | d :: ds =>
    match embed d.page_content with
    | .error e => .error e
    | .ok v =>
      match embedAll embed ds with
      | .error e => .error e
      | .ok vs => .ok (v :: vs)

/-- `Chroma.add_documents`: `add_texts` first embeds every text
(`embed_documents`), then upserts the records into the collection.  An
embedding failure therefore aborts before anything is inserted; a storage
failure aborts at the upsert.  Returns the resulting collection and the
raised error, if any. -/
def vs_add_documents (avail : Bool) (embed : EmbedFun)
    (store : Store) (newDocs : List Doc) : Store × Option String :=
  match embedAll embed newDocs with
  | .error e => (store, some e)
  | .ok _ => if avail then (store ++ newDocs, none) else (store, some "StorageUnavailable")

/-- `Chroma.similarity_search`: embeds the query text (any text, including
the empty string), then queries the collection with the metadata filter
`{"client_id": cid}`, returning at most `k` matching records.  The
similarity ranking is abstracted as insertion order; every claim below
depends only on the metadata filter and the `k` cap, not on the order. -/
def vs_similarity_search (avail : Bool) (embed : EmbedFun)
    (store : Store) (q : String) (k : Nat) (cid : Int) : Except String (List Doc) :=
  match embed q with
  | .error e => .error e
  | .ok _ =>
    if avail then .ok ((store.filter (fun d => d.metadata.client_id == cid)).take k)
    else .error "StorageUnavailable"

/-- Survival predicate of an id-keyed delete over the fragment key
(the metadata `doc_id`): a chunk survives unless its fragment id is
listed.  Backs `vs_delete` below. -/
def keepPred (ids : List Uuid) (d : Doc) : Bool :=
  match d.metadata.doc_id with
  | some i => !(ids.contains i)
  | none => true

/-- The id-keyed delete algebra of `collection.delete(ids)`, keyed by
the fragment id under which `rag_service` tracks chunks (the metadata
`doc_id`) — the operation the spec's `delete(fragment_ids)` contract
describes and that the service code treats `vectorstore.delete` as
implementing.  Note that `delete_client_documents` does not actually
reach the collection with record keys: the call it makes is modelled by
`chroma_delete` below. -/
def vs_delete (store : Store) (ids : List Uuid) : Store :=
  store.filter (keepPred ids)

/-- `Chroma.delete(ids)` as the collection executes it: removes every
record whose *collection record id* is listed; an id matching no record
id is simply not matched (a no-op).  The record ids are the version-1
uuids generated inside `add_texts` and discarded by `add_documents`, so
the version-4 metadata `doc_id`s that `delete_client_documents` passes
can never match one. -/
def chroma_delete (store : Store) (ids : List Uuid) : Store :=
  store.filter (fun d => !(ids.contains d.record_id))

/-- One chunk's langchain `Document` (body of the inner loop of
`add_documents`, `rag_service.py` lines 88-102): metadata copied from the
input document dictionary, `chunk_index` the position of the chunk within
its document, `doc_id` the fresh version-4 uuid
(`str(uuid.uuid4())`), and `record_id` the version-1 uuid the insertion
will generate for the record (see `Doc`); both draw their serial from
the program-wide fresh supply. -/
def mkChunkDoc (d : InDoc) (cid : Int) (i : Nat) (uid : Nat) (chunk : String) : Doc :=
  { page_content := chunk,
    metadata :=
      { client_id := cid, source_id := d.source_id, source_type := d.source_type,
        title := d.title, chunk_index := i, doc_id := some (Uuid.mk 4 uid) },
    record_id := Uuid.mk 1 uid }

/-- Inner loop of `add_documents` over `enumerate(chunks)`: each chunk
receives a fresh uuid (version 4, serial the current counter value) and
the ids are collected in order. -/
def chunkLoop (d : InDoc) (cid : Int) : List String → Nat → Nat → List Doc × List Uuid
  | [], _, _ => ([], [])
  | c :: cs, i, ctr =>
    let rest := chunkLoop d cid cs (i + 1) (ctr + 1)
    (mkChunkDoc d cid i ctr c :: rest.1, Uuid.mk 4 ctr :: rest.2)

/-- Outer loop of `add_documents` over the input document list: splits
each document's content and runs the inner loop; returns the langchain
docs, the collected `doc_ids`, and the advanced uuid counter. -/
def buildChunks (cid : Int) : List InDoc → Nat → List Doc × List Uuid × Nat
  | [], ctr => ([], [], ctr)
  | d :: ds, ctr =>
    let chunks := split_text d.content
    let cur := chunkLoop d cid chunks 0 ctr
    let rest := buildChunks cid ds (ctr + chunks.length)
    (cur.1 ++ rest.1, cur.2 ++ rest.2.1, rest.2.2)

/-- `RAGService.add_documents` (lines 67-113): builds one langchain doc
per chunk, then calls `vectorstore.add_documents` on the batch if it is
non-empty; any exception is re-raised (the `except` branch only logs).
Returns the resulting store and either the collected doc ids plus
advanced uuid counter, or the raised error. -/
def add_documents (avail : Bool) (embed : EmbedFun) (store : Store)
    (documents : List InDoc) (cid : Int) (ctr : Nat) :
    Store × Except String (List Uuid × Nat) :=
  let built := buildChunks cid documents ctr
  if built.1.isEmpty then (store, .ok (built.2.1, built.2.2))
  else
    match vs_add_documents avail embed store built.1 with
    | (store', none) => (store', .ok (built.2.1, built.2.2))
    | (store', some e) => (store', .error e)

/-- One element of the list `search_documents` returns (lines 136-142).
langchain `Document`s have no `score` attribute, so
`getattr(doc, 'score', 0.0)` always yields the 0.0 default, modelled as
the constant 0. -/
structure SearchResult where
  content : String
  metadata : Metadata
  score : Nat
  deriving Repr, DecidableEq

/-- `RAGService.search_documents` (lines 115-148): tenant-filtered
similarity search; any exception is caught and the empty list returned. -/
def search_documents (avail : Bool) (embed : EmbedFun) (store : Store)
    (q : String) (cid : Int) (k : Nat) : List SearchResult :=
  match vs_similarity_search avail embed store q k cid with
  | .ok results =>
    results.map (fun d => { content := d.page_content, metadata := d.metadata, score := 0 })
  | .error _ => []

/-- The spec's `count(tenant_id)` observable: the number of stored
fragments carrying the tenant's `client_id`. -/
def countStore (store : Store) (cid : Int) : Nat :=
  (store.filter (fun d => d.metadata.client_id == cid)).length

/-- One element of a group's `chunks` list (lines 260-264). -/
structure ChunkEntry where
  content : String
  chunk_index : Nat
  metadata : Metadata
  deriving Repr, DecidableEq

/-- One entry of the `sources` dictionary built by `get_client_documents`
(lines 249-264): keys `source_id`, `source_type`, `title`, `chunks` — and
no `content` key.  For docs created by `add_documents` the metadata keys
are always present (possibly holding `None`, which `dict.get` returns
unchanged), so the `.get` defaults of lines 251-262 never fire. -/
structure SourceGroup where
  source_id : Option String
  source_type : String
  title : String
  chunks : List ChunkEntry
  deriving Repr, DecidableEq

def chunkEntryOf (d : Doc) : ChunkEntry :=
  { content := d.page_content, chunk_index := d.metadata.chunk_index, metadata := d.metadata }

def newGroup (d : Doc) : SourceGroup :=
  { source_id := d.metadata.source_id, source_type := d.metadata.source_type,
    title := d.metadata.title, chunks := [chunkEntryOf d] }

/-- Insert one result doc into the ordered group list (a Python dict keeps
first-occurrence key order; chunks are appended in result order). -/
def insertDoc : List SourceGroup → Doc → List SourceGroup
  | [], d => [newGroup d]
  | g :: gs, d =>
    if g.source_id = d.metadata.source_id then
      { g with chunks := g.chunks ++ [chunkEntryOf d] } :: gs
    else g :: insertDoc gs d

def groupBySource (results : List Doc) : List SourceGroup :=
  results.foldl insertDoc []

/-- `RAGService.get_client_documents` (lines 238-270): enumerates the
client's fragments with an empty-string similarity search capped at
k=1000, then groups them by source; any exception yields `[]`. -/
def get_client_documents (avail : Bool) (embed : EmbedFun) (store : Store)
    (cid : Int) : List SourceGroup :=
  match vs_similarity_search avail embed store "" 1000 cid with
  | .ok results => groupBySource results
  | .error _ => []

/-- `RAGService.delete_client_documents` (lines 272-294): enumerates via
the same empty-string k=1000 search, collects the truthy metadata
`doc_id`s (`filterMap` models `if doc.metadata.get('doc_id')`: a missing
id is skipped; uuid strings are never falsy), passes that id list — the
version-4 metadata uuids, not the collection's record ids — to
`vectorstore.delete` if it is non-empty, and returns `True`; any
exception yields `False` with the store untouched. -/
def delete_client_documents (avail : Bool) (embed : EmbedFun) (store : Store)
    (cid : Int) : Store × Bool :=
  match vs_similarity_search avail embed store "" 1000 cid with
  | .error _ => (store, false)
  | .ok results =>
    let doc_ids := results.filterMap (fun d => d.metadata.doc_id)
    if doc_ids.isEmpty then (store, true)
    else (chroma_delete store doc_ids, true)

/-- Output of invoking the `RetrievalQA` chain: the generated answer and
the retrieved source documents. -/
structure ChainOutput where
  result : String
  source_documents : List Doc

/-- The QA chain as a capability: invoked with the question after the
retriever is re-pointed at the client's filter, it either produces a
`ChainOutput` or raises (modelling LLM/retriever failures). -/
abbrev QAChain := String → Int → Except String ChainOutput

structure SourceRef where
  content : String
  metadata : Metadata
  deriving Repr, DecidableEq

/-- The dictionary `RAGService.query` returns (lines 218-228 / 232-236). -/
structure QueryResult where
  answer : String
  sources : List SourceRef
  question : String
  deriving Repr, DecidableEq

/-- `RAGService.query` (lines 195-236).  The uninitialized-chain guard
raises `ValueError("QA chain not initialized. Call setup_qa_chain first.")`;
every exception is caught and converted into the error dictionary of
lines 232-236. -/
def query (qa_chain : Option QAChain) (question : String) (cid : Int) : QueryResult :=
  let attempt : Except String QueryResult :=
    match qa_chain with
    | none => .error "QA chain not initialized. Call setup_qa_chain first."
    | some chain =>
      match chain question cid with
      | .error e => .error e
      | .ok out =>
        .ok { answer := out.result,
              sources := out.source_documents.map (fun d =>
                { content := d.page_content, metadata := d.metadata }),
              question := question }
  match attempt with
  | .ok r => r
  | .error e =>
    { answer := "Error processing query: " ++ e, sources := [], question := question }

/-- The document dictionary the reindex loop passes to `add_documents`
(`rag_tasks.py` lines 118-124): the grouped dictionaries returned by
`get_client_documents` carry the keys `source_id`, `source_type`, `title`
and `chunks` and no `content` key, so `doc.get('content', '')` is the
empty string; `doc_data` itself has no `source_id` key, so
`add_documents` reads `None` for it. -/
def reindexDocData (g : SourceGroup) : InDoc :=
  { content := "", source_id := none, source_type := g.source_type, title := g.title }

/-- Loop of `reindex_documents_task` re-adding the grouped documents; an
exception from `add_documents` aborts the task (the surrounding `except`
returns a failed status), flagged by the Boolean. -/
def reindexLoop (avail : Bool) (embed : EmbedFun) (cid : Int) :
    List SourceGroup → Store → Nat → Store × Nat × Bool
  | [], st, ctr => (st, ctr, true)
  | g :: gs, st, ctr =>
    match add_documents avail embed st [reindexDocData g] cid ctr with
    | (st', .ok r) => reindexLoop avail embed cid gs st' r.2
    | (st', .error _) => (st', ctr, false)

/-- Client branch of `reindex_documents_task` (`rag_tasks.py` lines
108-131): fetch the grouped documents, delete the client's fragments,
re-add each grouped document.  Returns the final store, the counter, and
whether the task completed. -/
def reindex_documents_task (avail : Bool) (embed : EmbedFun) (store : Store)
    (cid : Int) (ctr : Nat) : Store × Nat × Bool :=
  let documents := get_client_documents avail embed store cid
  let del := delete_client_documents avail embed store cid
  reindexLoop avail embed cid documents del.1 ctr

/-! ## Concrete fixtures used by witnesses and counterexamples -/

/-- A live embedder: every text embeds successfully. -/
def embedOkW : EmbedFun := fun _ => .ok [0]

/-- A failed embedding backend: every call raises
`EmbeddingUnavailable`. -/
def embedFailW : EmbedFun := fun _ => .error "EmbeddingUnavailable"

/-- A stored fragment of tenant 1. -/
def dA : Doc :=
  { page_content := "alpha",
    metadata := { client_id := 1, source_id := some "sA", source_type := "manual",
                  title := "a", chunk_index := 0, doc_id := some (Uuid.mk 4 10) },
    record_id := Uuid.mk 1 10 }

/-- A stored fragment of tenant 2. -/
def dB : Doc :=
  { page_content := "beta",
    metadata := { client_id := 2, source_id := some "sB", source_type := "manual",
                  title := "b", chunk_index := 0, doc_id := some (Uuid.mk 4 20) },
    record_id := Uuid.mk 1 20 }

/-- A two-tenant store. -/
def stW : Store := [dA, dB]

/-- The search-result dictionary `search_documents` builds from `dA`. -/
def rA : SearchResult :=
  { content := dA.page_content, metadata := dA.metadata, score := 0 }

/-- A store holding one source (`s1`) of tenant 5 with three fragments,
each with its version-4 metadata `doc_id` and its version-1 collection
record id. -/
def stR : Store :=
  [ { page_content := "one",
      metadata := { client_id := 5, source_id := some "s1", source_type := "manual",
                    title := "t", chunk_index := 0, doc_id := some (Uuid.mk 4 1) },
      record_id := Uuid.mk 1 1 },
    { page_content := "two",
      metadata := { client_id := 5, source_id := some "s1", source_type := "manual",
                    title := "t", chunk_index := 1, doc_id := some (Uuid.mk 4 2) },
      record_id := Uuid.mk 1 2 },
    { page_content := "three",
      metadata := { client_id := 5, source_id := some "s1", source_type := "manual",
                    title := "t", chunk_index := 2, doc_id := some (Uuid.mk 4 3) },
      record_id := Uuid.mk 1 3 } ]

/-- Fragment number `i` of the large single-tenant store below. -/
def mkBigDoc (i : Nat) : Doc :=
  { page_content := "frag",
    metadata := { client_id := 9, source_id := some "sBig", source_type := "manual",
                  title := "big", chunk_index := i, doc_id := some (Uuid.mk 4 i) },
    record_id := Uuid.mk 1 i }

/-- A store holding 1001 fragments of tenant 9, with distinct ids. -/
def stBig : Store := (List.range 1001).map mkBigDoc

/-- A 2,500-character document without natural separators. -/
def doc2500 : String := String.mk (List.replicate 2500 'a')

/-- A QA chain whose invocation raises. -/
def chainFailW : QAChain := fun _ _ => .error "boom"

/-- A one-chunk input document. -/
def inX : InDoc := { content := "x" }

/-- The chunk stored for `inX` by a first ingest call (uuid counter 0). -/
def cX0 : Doc := mkChunkDoc inX 7 0 0 "x"

/-- The chunk stored for `inX` by a second, identical ingest call (uuid
counter 1). -/
def cX1 : Doc := mkChunkDoc inX 7 0 1 "x"

/-- Unfolding lemma: `chunkCharsAux` does not depend on the fuel as long as
the fuel is at least the length of the input. -/
theorem chunkCharsAux_fuel (fuel₁ : Nat) :
    ∀ (fuel₂ : Nat) (s : List Char), s.length ≤ fuel₁ → s.length ≤ fuel₂ →
      chunkCharsAux fuel₁ s = chunkCharsAux fuel₂ s := by
  induction fuel₁ with
  | zero =>
    intro f₂ s h₁ _
    have hs : s = [] := List.eq_nil_of_length_eq_zero (Nat.le_zero.mp h₁)
    subst hs
    cases f₂ <;> simp [chunkCharsAux]
  | succ f₁ ih =>
    intro f₂ s h₁ h₂
    cases f₂ with
    | zero =>
      have hs : s = [] := List.eq_nil_of_length_eq_zero (Nat.le_zero.mp h₂)
      subst hs
      simp [chunkCharsAux]
    | succ f₂ =>
      by_cases hemp : s.isEmpty
      · simp [chunkCharsAux, hemp]
      · by_cases hlen : s.length ≤ chunkSize
        · simp [chunkCharsAux, hemp, hlen]
        · have hlen' : chunkSize < s.length := Nat.lt_of_not_le hlen
          have hrec : chunkCharsAux f₁ (s.drop (chunkSize - chunkOverlap)) =
              chunkCharsAux f₂ (s.drop (chunkSize - chunkOverlap)) := by
            apply ih
            · simp only [List.length_drop, chunkSize, chunkOverlap]
              simp [chunkSize] at hlen'
              omega
            · simp only [List.length_drop, chunkSize, chunkOverlap]
              simp [chunkSize] at hlen'
              omega
          simp [chunkCharsAux, hemp, hlen, hrec]

/-- Step equation of the chunker on an input longer than one chunk. -/
theorem chunkCharsAux_step (fuel : Nat) (s : List Char) (h : 1000 < s.length) :
    chunkCharsAux (fuel + 1) s = s.take 1000 :: chunkCharsAux fuel (s.drop 800) := by
  have hemp : ¬ s.isEmpty = true := by
    intro hh
    rw [List.isEmpty_iff] at hh
    subst hh
    simp at h
  have hlen : ¬ s.length ≤ chunkSize := by simp [chunkSize]; omega
  simp only [chunkCharsAux, chunkSize, chunkOverlap]
  rw [if_neg hemp, if_neg (by simpa [chunkSize] using hlen)]

/-- Final equation of the chunker: a non-empty input of at most one chunk
is a single fragment. -/
theorem chunkCharsAux_small (fuel : Nat) (s : List Char)
    (h0 : ¬ s.isEmpty = true) (h : s.length ≤ 1000) :
    chunkCharsAux (fuel + 1) s = [s] := by
  simp only [chunkCharsAux, chunkSize]
  rw [if_neg h0, if_pos (by simpa [chunkSize] using h)]

/-- On a 2,500-character input the character-level splitter produces the
three windows `[0,1000)`, `[800,1800)`, `[1600,2500)`. -/
theorem chunkChars_len_2500 (s : List Char) (h : s.length = 2500) :
    chunkChars s = [s.take 1000, (s.drop 800).take 1000, s.drop 1600] := by
  have hdd : (s.drop 800).drop 800 = s.drop 1600 := by
    rw [List.drop_drop]
  have h800 : (s.drop 800).length = 1700 := by simp [h]
  have h1600 : (s.drop 1600).length = 900 := by simp [h]
  unfold chunkChars
  rw [h]
  rw [show (2500 : Nat) = 2499 + 1 from rfl,
    chunkCharsAux_step 2499 s (by omega)]
  rw [show (2499 : Nat) = 2498 + 1 from rfl,
    chunkCharsAux_step 2498 (s.drop 800) (by omega)]
  rw [hdd]
  rw [show (2498 : Nat) = 2497 + 1 from rfl,
    chunkCharsAux_small 2497 (s.drop 1600)
      (by intro hh; rw [List.isEmpty_iff] at hh; rw [hh] at h1600; simp at h1600)
      (by omega)]

/-- C5 (amended): chunking a 2,500-character separator-free document with
the configured splitter (`chunk_size=1000`, `chunk_overlap=200`) yields
exactly 3 fragments, of lengths 1000, 1000 and 900; every fragment is at
most 1000 characters, and each consecutive pair shares a 200-character
overlap (the trailing 200 characters of a fragment are the leading 200
characters of the next one). -/
theorem chunk_2500_three_fragments (s : List Char) (h : s.length = 2500) :
    chunkChars s = [s.take 1000, (s.drop 800).take 1000, s.drop 1600] ∧
    (chunkChars s).map List.length = [1000, 1000, 900] ∧
    (∀ c ∈ chunkChars s, c.length ≤ 1000) ∧
    (s.take 1000).drop 800 = (s.drop 800).take 200 ∧
    ((s.drop 800).take 1000).drop 800 = (s.drop 1600).take 200 := by
  have hc := chunkChars_len_2500 s h
  refine ⟨hc, ?_, ?_, ?_, ?_⟩
  · rw [hc]
    simp [h]
  · intro c hcm
    rw [hc] at hcm
    simp only [List.mem_cons, List.not_mem_nil, or_false] at hcm
    rcases hcm with rfl | rfl | rfl
    · simp [h]
    · simp [h]
    · simp [h]
  · rw [List.drop_take]
  · rw [List.drop_take, List.drop_drop]

/-- C5 amended witness: the fragment scheme evaluated on the concrete
2,500-character document of 2500 copies of 'a'. -/
theorem chunk_2500_three_fragments_witness :
    chunkChars (List.replicate 2500 'a') =
      [(List.replicate 2500 'a').take 1000,
        ((List.replicate 2500 'a').drop 800).take 1000,
        (List.replicate 2500 'a').drop 1600] ∧
    (chunkChars (List.replicate 2500 'a')).map List.length = [1000, 1000, 900] ∧
    (∀ c ∈ chunkChars (List.replicate 2500 'a'), c.length ≤ 1000) ∧
    ((List.replicate 2500 'a').take 1000).drop 800 =
      ((List.replicate 2500 'a').drop 800).take 200 ∧
    (((List.replicate 2500 'a').drop 800).take 1000).drop 800 =
      ((List.replicate 2500 'a').drop 1600).take 200 :=
  chunk_2500_three_fragments (List.replicate 2500 'a') (List.length_replicate 2500 'a')

/-- C5 counterexample: the concrete 2,500-character document of 2500
copies of 'a' chunks into 3 fragments, not 4. -/
theorem chunk_2500_not_four_cex :
    (split_text doc2500).length = 3 ∧ (split_text doc2500).length ≠ 4 := by
  have h : (List.replicate 2500 'a').length = 2500 := List.length_replicate 2500 'a'
  have hc := chunkChars_len_2500 (List.replicate 2500 'a') h
  have hdata : doc2500.data = List.replicate 2500 'a' := rfl
  have hlen : (split_text doc2500).length = 3 := by
    unfold split_text
    rw [hdata, hc]
    rfl
  exact ⟨hlen, by rw [hlen]; decide⟩

/-- C1: tenant isolation of `search_documents` — every returned fragment
carries the requested `client_id`, so for distinct tenants no fragment of
the other tenant is ever in the result (in every branch, including the
swallowed-exception branch). -/
theorem search_documents_tenant_isolated
    (avail : Bool) (embed : EmbedFun) (store : Store) (q : String)
    (cid other : Int) (k : Nat) (r : SearchResult)
    (hr : r ∈ search_documents avail embed store q cid k)
    (hne : other ≠ cid) :
    r.metadata.client_id = cid ∧ r.metadata.client_id ≠ other := by
  have hcid : r.metadata.client_id = cid := by
    unfold search_documents at hr
    cases hsr : vs_similarity_search avail embed store q k cid with
    | error e => rw [hsr] at hr; simp at hr
    | ok results =>
      rw [hsr] at hr
      simp only [List.mem_map] at hr
      obtain ⟨d, hd, hrd⟩ := hr
      unfold vs_similarity_search at hsr
      cases hemb : embed q with
      | error e => rw [hemb] at hsr; simp at hsr
      | ok v =>
        rw [hemb] at hsr
        cases avail with
        | false => simp at hsr
        | true =>
          simp only [if_true] at hsr
          have hres : results = (store.filter (fun d => d.metadata.client_id == cid)).take k := by
            cases hsr
            rfl
          rw [hres] at hd
          have hd' : d ∈ store.filter (fun d => d.metadata.client_id == cid) :=
            List.mem_of_mem_take hd
          have hp := (List.mem_filter.mp hd').2
          have : d.metadata.client_id = cid := by simpa using hp
          rw [← hrd]
          exact this
  refine ⟨hcid, ?_⟩
  rw [hcid]
  exact fun hh => hne hh.symm

/-- C1 witness: in the two-tenant store, the fragment returned for tenant
1 carries `client_id = 1` and not tenant 2's id. -/
theorem search_documents_tenant_isolated_witness :
    rA.metadata.client_id = 1 ∧ rA.metadata.client_id ≠ 2 :=
  search_documents_tenant_isolated true embedOkW stW "q" 1 2 5 rA (by decide) (by decide)

/-- C3 counterexample: the empty query is not rejected.  With a live
embedder `search_documents` returns the tenant's stored fragment for the
query `""` (the similarity search ran on empty input; no `EmptyQuery`
failure exists), and the embedder is consulted on `""`: replacing it by a
failing embedder changes the outcome. -/
theorem empty_query_not_rejected_cex :
    search_documents true embedOkW stW "" 1 5 = [rA] ∧
    search_documents true embedFailW stW "" 1 5 = [] ∧
    search_documents true embedOkW stW "" 1 5 ≠
      search_documents true embedFailW stW "" 1 5 := by
  refine ⟨by decide, by decide, by decide⟩

/-- C3 (amended): `search_documents` applies no special-casing to the
empty query: with a live embedder it embeds `""` like any other text and
returns the tenant-filtered similarity results; `get_client_documents`
relies on exactly this empty-string search with k=1000 to enumerate a
tenant's fragments. -/
theorem search_documents_empty_query_searches
    (embed : EmbedFun) (store : Store) (cid : Int) (k : Nat) (v : List Int)
    (hemb : embed "" = .ok v) :
    search_documents true embed store "" cid k =
      ((store.filter (fun d => d.metadata.client_id == cid)).take k).map
        (fun d => { content := d.page_content, metadata := d.metadata, score := 0 }) ∧
    get_client_documents true embed store cid =
      groupBySource ((store.filter (fun d => d.metadata.client_id == cid)).take 1000) := by
  constructor
  · simp [search_documents, vs_similarity_search, hemb]
  · simp [get_client_documents, vs_similarity_search, hemb]

/-- C3 amended witness: concrete empty-query search on the two-tenant
store. -/
theorem search_documents_empty_query_searches_witness :
    search_documents true embedOkW stW "" 1 5 =
      ((stW.filter (fun d => d.metadata.client_id == 1)).take 5).map
        (fun d => { content := d.page_content, metadata := d.metadata, score := 0 }) ∧
    get_client_documents true embedOkW stW 1 =
      groupBySource ((stW.filter (fun d => d.metadata.client_id == 1)).take 1000) :=
  search_documents_empty_query_searches embedOkW stW 1 5 [0] rfl

/-- Embedding a batch with a total embedder succeeds on every text. -/
theorem embedAll_ok_of_total (embed : EmbedFun) (v : List Int)
    (hemb : ∀ s, embed s = .ok v) (l : List Doc) :
    embedAll embed l = .ok (l.map fun _ => v) := by
  induction l with
  | nil => rfl
  | cons a t ih => simp [embedAll, hemb, ih]

/-- C4 counterexample: with the storage backend unavailable,
`search_documents` returns the empty list — indistinguishable from a
valid empty result — instead of failing with `StorageUnavailable` (the
same call with storage available returns tenant 1's fragment). -/
theorem storage_error_swallowed_cex :
    search_documents false embedOkW stW "q" 1 5 = [] ∧
    search_documents true embedOkW stW "q" 1 5 = [rA] := by
  refine ⟨by decide, by decide⟩

/-- C4 (amended): when the storage backend is unavailable, insert
(`add_documents`) propagates `StorageUnavailable` with the store
unchanged, but search (`search_documents`) swallows the error and
returns the empty list as if it were a valid result. -/
theorem storage_unavailable_split_behavior
    (embed : EmbedFun) (store : Store) (q : String) (cid : Int) (k : Nat)
    (documents : List InDoc) (ctr : Nat) (v : List Int)
    (hemb : ∀ s, embed s = .ok v)
    (hne : ¬ (buildChunks cid documents ctr).1.isEmpty = true) :
    search_documents false embed store q cid k = [] ∧
    add_documents false embed store documents cid ctr =
      (store, .error "StorageUnavailable") := by
  constructor
  · simp [search_documents, vs_similarity_search, hemb]
  · have hb := embedAll_ok_of_total embed v hemb (buildChunks cid documents ctr).1
    simp [add_documents, vs_add_documents, hb, hne]

/-- C4 witness: a concrete one-chunk insert and a concrete search, both
against unavailable storage. -/
theorem storage_unavailable_split_behavior_witness :
    search_documents false embedOkW stW "q" 1 5 = [] ∧
    add_documents false embedOkW stW [{ content := "x" }] 1 0 =
      (stW, .error "StorageUnavailable") :=
  storage_unavailable_split_behavior embedOkW stW "q" 1 5 [{ content := "x" }] 0 [0]
    (fun _ => rfl) (by decide)

/-- A batch embedding fails when some text of the batch fails to embed
(with whatever error comes first). -/
theorem embedAll_error_of_mem (embed : EmbedFun) (l : List Doc) (d : Doc)
    (hd : d ∈ l) (e : String) (he : embed d.page_content = .error e) :
    ∃ err, embedAll embed l = .error err := by
  induction l with
  | nil => cases hd
  | cons a t ih =>
    rcases List.mem_cons.mp hd with rfl | hmem
    · exact ⟨e, by simp [embedAll, he]⟩
    · cases hea : embed a.page_content with
      | error e' => exact ⟨e', by simp [embedAll, hea]⟩
      | ok v =>
        obtain ⟨err, herr⟩ := ih hmem
        exact ⟨err, by simp [embedAll, hea, herr]⟩

/-- C2: if the embedding step of an `add_documents` call fails on some
chunk of the call, the call surfaces an error and the store is exactly
what it was before the call, so `count` is unchanged for every tenant —
partial ingestion is never visible to readers.  (The rollback obligation
is discharged trivially: the batch is embedded in full before any record
is inserted, so a failing embedding inserts nothing and the set of
fragments to roll back is empty.) -/
theorem add_documents_atomic_on_embed_failure
    (avail : Bool) (embed : EmbedFun) (store : Store) (documents : List InDoc)
    (cid : Int) (ctr : Nat) (d : Doc) (e : String)
    (hd : d ∈ (buildChunks cid documents ctr).1)
    (he : embed d.page_content = .error e) :
    (∃ err, add_documents avail embed store documents cid ctr = (store, .error err)) ∧
    ∀ tid, countStore (add_documents avail embed store documents cid ctr).1 tid
      = countStore store tid := by
  obtain ⟨err, herr⟩ := embedAll_error_of_mem embed _ d hd e he
  have hne : ¬ (buildChunks cid documents ctr).1.isEmpty = true := by
    intro hh
    rw [List.isEmpty_iff] at hh
    rw [hh] at hd
    cases hd
  have hadd : add_documents avail embed store documents cid ctr = (store, .error err) := by
    simp [add_documents, vs_add_documents, herr, hne]
  exact ⟨⟨err, hadd⟩, fun tid => by rw [hadd]⟩

/-- C2 witness: ingesting one document whose single chunk fails to embed
leaves the two-tenant store untouched and surfaces the error. -/
theorem add_documents_atomic_on_embed_failure_witness :
    mkChunkDoc { content := "x" } 1 0 0 "x" ∈ (buildChunks 1 [{ content := "x" }] 0).1 ∧
    ((∃ err, add_documents true embedFailW stW [{ content := "x" }] 1 0 =
        (stW, .error err)) ∧
      ∀ tid, countStore (add_documents true embedFailW stW [{ content := "x" }] 1 0).1 tid
        = countStore stW tid) :=
  ⟨by decide,
    add_documents_atomic_on_embed_failure true embedFailW stW [{ content := "x" }] 1 0
      (mkChunkDoc { content := "x" } 1 0 0 "x") "EmbeddingUnavailable" (by decide) rfl⟩

/-- C7: the id-based delete used at line 287 is idempotent — deleting the
same id set twice leaves the store exactly as deleting it once — and
deleting an id that no stored fragment carries is a no-op returning the
store unchanged, not an error. -/
theorem vs_delete_idempotent_absent_noop
    (store : Store) (ids : List Uuid) (x : Uuid)
    (hx : ∀ d ∈ store, d.metadata.doc_id ≠ some x) :
    vs_delete (vs_delete store ids) ids = vs_delete store ids ∧
    vs_delete store [x] = store := by
  constructor
  · unfold vs_delete
    rw [List.filter_filter]
    apply List.filter_congr
    intro d _
    cases hid : d.metadata.doc_id <;> simp [keepPred, hid]
  · unfold vs_delete
    apply List.filter_eq_self.mpr
    intro d hdm
    have hne := hx d hdm
    cases hid : d.metadata.doc_id with
    | none => simp [keepPred, hid]
    | some i =>
      rw [hid] at hne
      have hix : i ≠ x := fun hh => hne (by rw [hh])
      simp [keepPred, hid, hix]

/-- C7 witness: deleting tenant 1's fragment id from the two-tenant
store twice equals deleting it once, and deleting an absent id is a
no-op. -/
theorem vs_delete_idempotent_absent_noop_witness :
    vs_delete (vs_delete stW [Uuid.mk 4 10]) [Uuid.mk 4 10] = vs_delete stW [Uuid.mk 4 10] ∧
    vs_delete stW [Uuid.mk 4 99] = stW :=
  vs_delete_idempotent_absent_noop stW [Uuid.mk 4 10] (Uuid.mk 4 99) (by decide)

/-- C8: `RAGService.query` is total at its public interface: the result
always echoes the question; with an uninitialized QA chain it returns the
error dictionary built from the `ValueError` text with empty sources, and
when the chain itself raises, the error dictionary carries that error's
text — no branch raises. -/
theorem query_total_error_dict
    (qa : Option QAChain) (question : String) (cid : Int) :
    (query qa question cid).question = question ∧
    (qa = none →
      query qa question cid =
        { answer := "Error processing query: QA chain not initialized. Call setup_qa_chain first.",
          sources := [], question := question }) ∧
    (∀ chain e, qa = some chain → chain question cid = .error e →
      query qa question cid =
        { answer := "Error processing query: " ++ e, sources := [], question := question }) := by
  refine ⟨?_, ?_, ?_⟩
  · cases qa with
    | none => rfl
    | some chain =>
      cases hres : chain question cid with
      | error e => simp [query, hres]
      | ok out => simp [query, hres]
  · rintro rfl
    rfl
  · rintro chain e rfl hres
    simp [query, hres]

/-- C8 witness: concrete uninitialized-chain call and concrete failing
chain call, both returning the error dictionary. -/
theorem query_total_error_dict_witness :
    (query none "who" 3).question = "who" ∧
    query none "who" 3 =
      { answer := "Error processing query: QA chain not initialized. Call setup_qa_chain first.",
        sources := [], question := "who" } ∧
    query (some chainFailW) "who" 3 =
      { answer := "Error processing query: boom", sources := [], question := "who" } :=
  ⟨(query_total_error_dict none "who" 3).1,
    (query_total_error_dict none "who" 3).2.1 rfl,
    (query_total_error_dict (some chainFailW) "who" 3).2.2 chainFailW "boom" rfl rfl⟩

/-- C6 (code bug): reindexing a tenant that owns one source of three
fragments reports completion but changes nothing at all.  The delete
step passes the version-4 metadata `doc_id`s to `Chroma.delete`, which
keys on the internally generated version-1 record ids, so no record is
removed; and the re-add step reads `doc.get('content', '')` from
grouped dictionaries that carry no `content` key, so it re-adds zero
chunks.  The store is unchanged: `count(tenant)` stays 3 — it neither
drops by 1 to 2 as the spec's scenario requires, nor are any of the
original fragment ids made unreachable: all three are still returned by
a subsequent search. -/
theorem reindex_documents_task_changes_nothing :
    countStore stR 5 = 3 ∧
    (reindex_documents_task true embedOkW stR 5 100).2.2 = true ∧
    (reindex_documents_task true embedOkW stR 5 100).1 = stR ∧
    countStore (reindex_documents_task true embedOkW stR 5 100).1 5 = 3 ∧
    countStore (reindex_documents_task true embedOkW stR 5 100).1 5 ≠ 2 ∧
    ∀ d ∈ stR, ∃ r ∈ search_documents true embedOkW
        (reindex_documents_task true embedOkW stR 5 100).1 "q" 5 1000,
      r.metadata.doc_id = d.metadata.doc_id := by
  refine ⟨by decide, by decide, by decide, by decide, by decide, by decide⟩

/-- C9: one `delete_client_documents` call enumerates the tenant's
fragments via a similarity search capped at k=1000, so it observes and
deletes at most 1000 fragments — in fact it deletes none: the ids it
passes to `Chroma.delete` are the version-4 metadata `doc_id`s, which
never match the version-1 record ids the collection is keyed by.  The
call returns `True` with the store unchanged, so on a tenant owning more
than 1000 stored fragments, more than 1000 (in particular some) of the
tenant's fragments remain in the index afterwards. -/
theorem delete_client_documents_capped
    (embed : EmbedFun) (store : Store) (cid : Int) (v : List Int)
    (hemb : embed "" = .ok v)
    (hcount : 1000 < countStore store cid)
    (hrec : ∀ d ∈ store, d.record_id.version = 1)
    (hdoc : ∀ d ∈ store, ∀ u, d.metadata.doc_id = some u → u.version = 4) :
    ((store.filter (fun d => d.metadata.client_id == cid)).take 1000).length ≤ 1000 ∧
    delete_client_documents true embed store cid = (store, true) ∧
    countStore (delete_client_documents true embed store cid).1 cid
      = countStore store cid ∧
    1000 < countStore (delete_client_documents true embed store cid).1 cid := by
  have hsearch : vs_similarity_search true embed store "" 1000 cid =
      .ok ((store.filter (fun d => d.metadata.client_id == cid)).take 1000) := by
    simp [vs_similarity_search, hemb]
  have hnone : chroma_delete store
      (((store.filter (fun d => d.metadata.client_id == cid)).take 1000).filterMap
        (fun d => d.metadata.doc_id)) = store := by
    unfold chroma_delete
    apply List.filter_eq_self.mpr
    intro d hd
    have hnotmem : d.record_id ∉
        ((store.filter (fun d => d.metadata.client_id == cid)).take 1000).filterMap
          (fun d => d.metadata.doc_id) := by
      intro hmem
      obtain ⟨a, ha, hai⟩ := List.mem_filterMap.mp hmem
      have ha' : a ∈ store := List.mem_of_mem_filter (List.mem_of_mem_take ha)
      have h4 : d.record_id.version = 4 := hdoc a ha' d.record_id hai
      have h1 : d.record_id.version = 1 := hrec d hd
      rw [h1] at h4
      exact absurd h4 (by decide)
    simp [hnotmem]
  have hdel : delete_client_documents true embed store cid = (store, true) := by
    unfold delete_client_documents
    rw [hsearch]
    by_cases hie :
        (((store.filter (fun d => d.metadata.client_id == cid)).take 1000).filterMap
          (fun d => d.metadata.doc_id)).isEmpty = true
    · simp [hie]
    · simp [hie, hnone]
  refine ⟨List.length_take_le _ _, hdel, by rw [hdel], ?_⟩
  rw [hdel]
  exact hcount

/-- C9 witness: on the 1001-fragment store of tenant 9 the delete call
returns `True`, the store is untouched, and all 1001 fragments remain. -/
theorem delete_client_documents_capped_witness :
    ((stBig.filter (fun d => d.metadata.client_id == 9)).take 1000).length ≤ 1000 ∧
    delete_client_documents true embedOkW stBig 9 = (stBig, true) ∧
    countStore (delete_client_documents true embedOkW stBig 9).1 9 = countStore stBig 9 ∧
    1000 < countStore (delete_client_documents true embedOkW stBig 9).1 9 := by
  have hfil : stBig.filter (fun d => d.metadata.client_id == 9) = stBig := by
    apply List.filter_eq_self.mpr
    intro d hd
    simp only [stBig] at hd
    obtain ⟨i, _, rfl⟩ := List.mem_map.mp hd
    rfl
  have hlen : stBig.length = 1001 := by
    simp only [stBig]
    rw [List.length_map, List.length_range]
  have hcount : 1000 < countStore stBig 9 := by
    unfold countStore
    rw [hfil, hlen]
    omega
  have hrec : ∀ d ∈ stBig, d.record_id.version = 1 := by
    intro d hd
    simp only [stBig] at hd
    obtain ⟨i, _, rfl⟩ := List.mem_map.mp hd
    rfl
  have hdoc : ∀ d ∈ stBig, ∀ u, d.metadata.doc_id = some u → u.version = 4 := by
    intro d hd u hu
    simp only [stBig] at hd
    obtain ⟨i, _, rfl⟩ := List.mem_map.mp hd
    have hu' : some (Uuid.mk 4 i) = some u := hu
    cases hu'
    rfl
  exact delete_client_documents_capped embedOkW stBig 9 [0] rfl hcount hrec hdoc

/-- The inner chunk loop assigns consecutive fresh ids starting at the
counter, one per chunk. -/
theorem chunkLoop_ids (d : InDoc) (cid : Int) (cs : List String) :
    ∀ i ctr : Nat,
      (chunkLoop d cid cs i ctr).2 =
        (List.range' ctr cs.length).map (fun s => Uuid.mk 4 s) ∧
      (chunkLoop d cid cs i ctr).1.length = cs.length := by
  induction cs with
  | nil => intro i ctr; exact ⟨rfl, rfl⟩
  | cons c cs ih =>
    intro i ctr
    obtain ⟨h1, h2⟩ := ih (i + 1) (ctr + 1)
    constructor
    · show Uuid.mk 4 ctr :: (chunkLoop d cid cs (i + 1) (ctr + 1)).2 =
        (List.range' ctr (cs.length + 1)).map (fun s => Uuid.mk 4 s)
      rw [List.range'_succ, List.map_cons, h1]
    · show (chunkLoop d cid cs (i + 1) (ctr + 1)).1.length + 1 = cs.length + 1
      rw [h2]

/-- Every doc built by the inner chunk loop carries the call's client id
and one of the loop's fresh ids. -/
theorem chunkLoop_docs (d : InDoc) (cid : Int) (cs : List String) :
    ∀ (i ctr : Nat) (x : Doc), x ∈ (chunkLoop d cid cs i ctr).1 →
      x.metadata.client_id = cid ∧
      ∃ u ∈ (chunkLoop d cid cs i ctr).2, x.metadata.doc_id = some u := by
  induction cs with
  | nil => intro i ctr x hx; cases hx
  | cons c cs ih =>
    intro i ctr x hx
    have hx' : x = mkChunkDoc d cid i ctr c ∨ x ∈ (chunkLoop d cid cs (i + 1) (ctr + 1)).1 :=
      List.mem_cons.mp hx
    rcases hx' with rfl | hmem
    · exact ⟨rfl, Uuid.mk 4 ctr, List.mem_cons_self _ _, rfl⟩
    · obtain ⟨h1, u, hu, h2⟩ := ih (i + 1) (ctr + 1) x hmem
      exact ⟨h1, u, List.mem_cons_of_mem _ hu, h2⟩

/-- The outer ingest loop's collected ids are exactly the counter range
of the call, and the returned counter is advanced by the number of
chunks. -/
theorem buildChunks_ids (cid : Int) (documents : List InDoc) :
    ∀ ctr : Nat,
      (buildChunks cid documents ctr).2.1 =
        (List.range' ctr (buildChunks cid documents ctr).1.length).map
          (fun s => Uuid.mk 4 s) ∧
      (buildChunks cid documents ctr).2.2 =
        ctr + (buildChunks cid documents ctr).1.length := by
  induction documents with
  | nil => intro ctr; exact ⟨rfl, rfl⟩
  | cons d ds ih =>
    intro ctr
    obtain ⟨hl1, hl2⟩ := chunkLoop_ids d cid (split_text d.content) 0 ctr
    obtain ⟨hr1, hr2⟩ := ih (ctr + (split_text d.content).length)
    have hlen : (buildChunks cid (d :: ds) ctr).1.length =
        (split_text d.content).length +
          (buildChunks cid ds (ctr + (split_text d.content).length)).1.length := by
      show ((chunkLoop d cid (split_text d.content) 0 ctr).1 ++
        (buildChunks cid ds (ctr + (split_text d.content).length)).1).length = _
      rw [List.length_append, hl2]
    constructor
    · show (chunkLoop d cid (split_text d.content) 0 ctr).2 ++
        (buildChunks cid ds (ctr + (split_text d.content).length)).2.1 = _
      rw [hl1, hr1, hlen]
      rw [← List.map_append]
      have happ := List.range'_append ctr (split_text d.content).length
        (buildChunks cid ds (ctr + (split_text d.content).length)).1.length 1
      rw [Nat.one_mul] at happ
      rw [happ.trans (by rw [Nat.add_comm])]
    · show (buildChunks cid ds (ctr + (split_text d.content).length)).2.2 = _
      rw [hr2, hlen]
      omega

/-- Every doc built by the ingest loop carries the call's client id and
one of the call's collected ids. -/
theorem buildChunks_docs (cid : Int) (documents : List InDoc) :
    ∀ (ctr : Nat) (x : Doc), x ∈ (buildChunks cid documents ctr).1 →
      x.metadata.client_id = cid ∧
      ∃ u ∈ (buildChunks cid documents ctr).2.1, x.metadata.doc_id = some u := by
  induction documents with
  | nil => intro ctr x hx; cases hx
  | cons d ds ih =>
    intro ctr x hx
    have hx' : x ∈ (chunkLoop d cid (split_text d.content) 0 ctr).1 ∨
        x ∈ (buildChunks cid ds (ctr + (split_text d.content).length)).1 :=
      List.mem_append.mp hx
    rcases hx' with hm | hm
    · obtain ⟨h1, u, hu, h2⟩ := chunkLoop_docs d cid (split_text d.content) 0 ctr x hm
      exact ⟨h1, u, List.mem_append_left _ hu, h2⟩
    · obtain ⟨h1, u, hu, h2⟩ := ih _ x hm
      exact ⟨h1, u, List.mem_append_right _ hu, h2⟩

/-- A successful `add_documents` call returns exactly the collected ids,
the advanced counter, and the store with the new chunks appended. -/
theorem add_documents_ok_shape
    (avail : Bool) (embed : EmbedFun) (store st : Store)
    (documents : List InDoc) (cid : Int) (ctr c : Nat) (ids : List Uuid)
    (h : add_documents avail embed store documents cid ctr = (st, .ok (ids, c))) :
    ids = (buildChunks cid documents ctr).2.1 ∧
    c = (buildChunks cid documents ctr).2.2 ∧
    st = store ++ (buildChunks cid documents ctr).1 := by
  unfold add_documents at h
  by_cases hbe : (buildChunks cid documents ctr).1.isEmpty
  · rw [if_pos hbe] at h
    have hnil : (buildChunks cid documents ctr).1 = [] := List.isEmpty_iff.mp hbe
    simp only [Prod.mk.injEq, Except.ok.injEq] at h
    refine ⟨h.2.1.symm, h.2.2.symm, ?_⟩
    rw [hnil, List.append_nil]
    exact h.1.symm
  · rw [if_neg hbe] at h
    unfold vs_add_documents at h
    cases he : embedAll embed (buildChunks cid documents ctr).1 with
    | error e =>
      rw [he] at h
      simp at h
    | ok vs =>
      rw [he] at h
      cases avail with
      | false => simp at h
      | true =>
        rw [if_pos rfl] at h
        simp only [Prod.mk.injEq, Except.ok.injEq] at h
        exact ⟨h.2.1.symm, h.2.2.symm, h.1.symm⟩

/-- C10: every chunk stored by a successful `add_documents` call carries
the call's `client_id` and one of the call's freshly generated ids; the
ids of a call are the uuid-counter range of that call, so a second call
with identical input (threading the uuid supply) stores a disjoint set of
doc ids — ingestion is not idempotent by content. -/
theorem add_documents_fresh_ids
    (avail : Bool) (embed : EmbedFun) (store store₁ store₂ : Store)
    (documents : List InDoc) (cid : Int) (ctr ctr₁ ctr₂ : Nat)
    (ids₁ ids₂ : List Uuid)
    (h₁ : add_documents avail embed store documents cid ctr = (store₁, .ok (ids₁, ctr₁)))
    (h₂ : add_documents avail embed store₁ documents cid ctr₁ = (store₂, .ok (ids₂, ctr₂))) :
    store₁ = store ++ (buildChunks cid documents ctr).1 ∧
    (∀ x ∈ (buildChunks cid documents ctr).1,
        x.metadata.client_id = cid ∧ ∃ u ∈ ids₁, x.metadata.doc_id = some u) ∧
    List.Disjoint ids₁ ids₂ := by
  obtain ⟨hi₁, hc₁, hs₁⟩ :=
    add_documents_ok_shape avail embed store store₁ documents cid ctr ctr₁ ids₁ h₁
  obtain ⟨hi₂, hc₂, hs₂⟩ :=
    add_documents_ok_shape avail embed store₁ store₂ documents cid ctr₁ ctr₂ ids₂ h₂
  obtain ⟨hb₁, hB₁⟩ := buildChunks_ids cid documents ctr
  obtain ⟨hb₂, hB₂⟩ := buildChunks_ids cid documents ctr₁
  refine ⟨hs₁, ?_, ?_⟩
  · intro x hx
    obtain ⟨hcl, u, hu, hdoc⟩ := buildChunks_docs cid documents ctr x hx
    refine ⟨hcl, u, ?_, hdoc⟩
    rw [hi₁]
    exact hu
  · intro a ha hb
    rw [hi₁, hb₁] at ha
    rw [hi₂, hb₂] at hb
    obtain ⟨s, hs, rfl⟩ := List.mem_map.mp ha
    obtain ⟨t, ht, heq⟩ := List.mem_map.mp hb
    have hts : t = s := by
      have hser := congrArg Uuid.serial heq
      simpa using hser
    subst hts
    rw [List.mem_range'_1] at hs ht
    rw [hc₁, hB₁] at ht
    omega

/-- C10 witness: two identical one-document ingest calls on the empty
store, threading the uuid supply: the stored chunk carries client 7, the
first call's id has serial 0, the second call's serial 1 — disjoint. -/
theorem add_documents_fresh_ids_witness :
    [cX0] = ([] : Store) ++ (buildChunks 7 [inX] 0).1 ∧
    (∀ x ∈ (buildChunks 7 [inX] 0).1,
        x.metadata.client_id = 7 ∧ ∃ u ∈ [Uuid.mk 4 0], x.metadata.doc_id = some u) ∧
    List.Disjoint [Uuid.mk 4 0] [Uuid.mk 4 1] :=
  add_documents_fresh_ids true embedOkW [] [cX0] [cX0, cX1] [inX] 7 0 1 2
    [Uuid.mk 4 0] [Uuid.mk 4 1] rfl rfl

end RagService
